import Mathlib

/-!
Verification of the `algorand-tut` repository (PyTEAL contracts and the
app-building utilities) against its natural-language specification.

The PyTEAL programs in `algorand_tut/contracts.py` and the builder code in
`algorand_tut/utils.py` are shallowly embedded: TEAL uint64 values are
modelled as `Nat` (TEAL subtraction panics on underflow; here it truncates,
which is noted wherever it could matter), byte strings as `String` or
`List Nat`, missing optional state keys as `Option`, and Python code that
raises as `Except String`.  Each definition is translated line by line from
the source file it names.
-/

namespace AlgorandTut

/-! ### `utils.fix_lease_size` (utils.py lines 161-168)

`algosdk.constants.LEASE_LENGTH` is 32.  The Python function truncates the
input to the first 32 bytes and right-pads with zero bytes up to 32. -/

def LEASE_LENGTH : Nat := 32

/-- `utils.fix_lease_size`: `lease = lease[:32]; lease = lease + b"\x00" * max(0, 32 - len(lease))`.
Bytes are modelled as `List Nat`; `max 0 (32 - len)` collapses to `32 - len`
on `Nat` exactly as in Python (where the inner subtraction can be negative,
hence the `max`). -/
def fix_lease_size (lease : List Nat) : List Nat :=
  let lease' := lease.take LEASE_LENGTH
  lease' ++ List.replicate (LEASE_LENGTH - lease'.length) 0

/-! ### `utils.StateBuilder` (utils.py lines 377-560)

`KeyInfo(key, has_type, init)` keeps a key name, its PyTEAL type class
(`tl.Int` or `tl.Bytes`) and an optional default value.  The builder's
constructor iterates over the key infos, validating each and populating the
dictionaries `infos`, `bytes`, `loader` (keys with a default, read with
`globalGet`/`localGet`) and `loader_ex` (optional keys, read through a
cached `MaybeValue`).  Python dictionaries are modelled as association /
name lists with insert-or-overwrite semantics; Python `raise` is modelled
with `Except String`. -/

inductive TealType where
  | int
  | bytes
deriving DecidableEq, Repr

/-- A stored value: a TEAL uint64 or a byte string. -/
inductive StateVal where
  | int (n : Nat)
  | bytes (b : List Nat)
deriving DecidableEq, Repr

/-- `utils.KeyInfo` (utils.py lines 377-396). -/
structure KeyInfo where
  key : String
  has_type : TealType
  init : Option StateVal := none
deriving DecidableEq, Repr

/-- `utils.StateBuilder.Scope` (utils.py lines 402-404). -/
inductive Scope where
  | GLOBAL
  | LOCAL
deriving DecidableEq, Repr

/-- The PyTEAL expressions the builder methods return, kept as a small
syntax so that which storage operation is produced for which key is
observable.  `getExValue` is `MaybeValue.value()` of the cached probe. -/
inductive SExpr where
  | lit (n : Nat)
  | getKey (scope : Scope) (k : String)
  | getExValue (scope : Scope) (k : String)
  | put (scope : Scope) (k : String) (v : SExpr)
  | add (a b : SExpr)
  | sub (a b : SExpr)
deriving DecidableEq, Repr

/-- Insert-or-overwrite into a Python-dict-like association list: an
existing key keeps its position and gets the new value, a new key is
appended. -/
def dictSet (d : List (String × KeyInfo)) (k : String) (v : KeyInfo) :
    List (String × KeyInfo) :=
  if d.any (fun p => p.1 == k) then
    d.map (fun p => if p.1 == k then (k, v) else p)
  else
    d ++ [(k, v)]

/-- Insert into a dict modelled only by its key list (the stored
expression objects do not matter to the claims, membership does). -/
def nameInsert (l : List String) (k : String) : List String :=
  if l.contains k then l else l ++ [k]

/-- The state of a constructed `utils.StateBuilder`: the scope, whether a
foreign `app_id` was supplied, and the four dictionaries built by
`__init__` (`self.infos`, `self.bytes`, `self.loader`, `self.loader_ex`;
the last three are tracked by their key sets). -/
structure StateBuilder where
  scope : Scope
  is_foreign : Bool
  infos : List (String × KeyInfo)
  bytes : List String
  loader : List String
  loader_ex : List String
deriving DecidableEq, Repr

/-- One iteration of the `for info in key_infos` loop body after the two
validation checks have passed (utils.py lines 454-477). -/
def addKey (sb : StateBuilder) (info : KeyInfo) : StateBuilder :=
  { sb with
    infos := dictSet sb.infos info.key info
    bytes := nameInsert sb.bytes info.key
    loader := if info.init.isSome then nameInsert sb.loader info.key else sb.loader
    loader_ex := if info.init.isSome then sb.loader_ex else nameInsert sb.loader_ex info.key }

/-- The `for info in key_infos` loop of `StateBuilder.__init__`
(utils.py lines 446-477): each key is checked for a name longer than 64
utf-8 bytes and for carrying a default while the builder targets a foreign
app; either check raises `ValueError`. -/
def initLoop (sb : StateBuilder) : List KeyInfo → Except String StateBuilder
  | [] => .ok sb
  | info :: rest =>
    if 64 < info.key.utf8ByteSize then
      .error ("key too long: " ++ info.key)
    else if sb.is_foreign && info.init.isSome then
      .error "key cannot have init into foreign app"
    else
      initLoop (addKey sb info) rest

/-- `utils.StateBuilder.__init__` (utils.py lines 406-477).  `is_foreign`
is `app_id is not None`. -/
def StateBuilder.make (scope : Scope) (key_infos : List KeyInfo)
    (is_foreign : Bool) : Except String StateBuilder :=
  initLoop ⟨scope, is_foreign, [], [], [], []⟩ key_infos

/-- `utils.StateBuilder.get` (utils.py lines 479-487): an eager key reads
through its cached loader, an optional key through the cached probe's
`value()`; an unknown key raises `KeyError`. -/
def StateBuilder.get (sb : StateBuilder) (k : String) : Except String SExpr :=
  if sb.loader.contains k then
    .ok (SExpr.getKey sb.scope k)
  else if sb.loader_ex.contains k then
    .ok (SExpr.getExValue sb.scope k)
  else
    .error ("KeyError: " ++ k)

/-- `utils.StateBuilder.maybe` (utils.py lines 489-501):
`self.loader_ex[key]` raises `KeyError` for a key not in that dict. -/
def StateBuilder.maybe (sb : StateBuilder) (k : String) : Except String SExpr :=
  if sb.loader_ex.contains k then
    .ok (SExpr.getExValue sb.scope k)
  else
    .error ("KeyError: " ++ k)

/-- `utils.StateBuilder.set` (utils.py lines 503-509): `self.bytes[key]`
raises `KeyError` for an unknown key, otherwise a `globalPut`/`localPut`
expression is produced. -/
def StateBuilder.set (sb : StateBuilder) (k : String) (v : SExpr) :
    Except String SExpr :=
  if sb.bytes.contains k then
    .ok (SExpr.put sb.scope k v)
  else
    .error ("KeyError: " ++ k)

/-- `utils.StateBuilder.inc` (utils.py lines 511-515):
`self.set(key, self.get(key) + value)`. -/
def StateBuilder.inc (sb : StateBuilder) (k : String) (v : SExpr) :
    Except String SExpr := do
  let g ← sb.get k
  sb.set k (SExpr.add g v)

/-- `utils.StateBuilder.dec` (utils.py lines 517-521):
`self.set(key, self.get(key) - value)`. -/
def StateBuilder.dec (sb : StateBuilder) (k : String) (v : SExpr) :
    Except String SExpr := do
  let g ← sb.get k
  sb.set k (SExpr.sub g v)

/-- `transaction.StateSchema`. -/
structure StateSchema where
  num_uints : Nat
  num_byte_slices : Nat
deriving DecidableEq, Repr

/-- `utils.StateBuilder.schema` (utils.py lines 547-560): walk
`self.infos.values()` counting keys with `has_type is tl.Int` and with
`has_type is tl.Bytes`.  Note the method reads only `self.infos`; no
`StateBuilder` method ever mutates the instance, which the embedding
reflects by making every operation a pure function of the builder. -/
def StateBuilder.schema (sb : StateBuilder) : StateSchema :=
  { num_uints := sb.infos.countP (fun p => p.2.has_type == TealType.int)
    num_byte_slices := sb.infos.countP (fun p => p.2.has_type == TealType.bytes) }

/-- True exactly when the Python call raised. -/
def isErr {α : Type} (e : Except String α) : Bool :=
  match e with
  | .error _ => true
  | .ok _ => false

/-! ### The distributed treasury app (contracts.py lines 115-368)

The app's storage (contracts.py lines 123-152) is embedded as two record
types; account addresses are modelled as `Nat`.  Eager keys (declared with
the default `zero`) are plain `Nat` fields; optional keys are `Option`
fields, read through `MaybeValue`: `hasValue()` is `Option.isSome` and
`value()` is `Option.getD 0` (TEAL's `app_global_get_ex` /
`app_local_get_ex` push 0 for an absent key).

TEAL uint64 arithmetic is modelled on `Nat`; TEAL `-` panics on underflow
while `Nat` subtraction truncates, and every concrete scenario below stays
away from underflow. -/

/-- Global state of the treasury app (contracts.py lines 123-137). -/
structure GState where
  funds_current : Nat
  funds_future : Nat
  votes_for : Nat
  votes_against : Nat
  term_used : Nat
  term_budget : Nat
  nominee : Option Nat
  last_nomination_ts : Option Nat
deriving DecidableEq, Repr

/-- Local (per-account) state of the treasury app
(contracts.py lines 139-152). -/
structure LState where
  funds_current : Nat
  funds_future : Nat
  votes_for : Nat
  votes_against : Nat
  last_nomination_ts : Option Nat
  last_vote_ts : Option Nat
  last_funds_ts : Option Nat
deriving DecidableEq, Repr

/-- contracts.py line 161. -/
def cooldown : Nat := 30
/-- contracts.py line 162. -/
def voting_duration : Nat := 30
/-- contracts.py line 163. -/
def term_duration : Nat := 60

/-- `TxnType` values relevant to the group check. -/
inductive TxnType where
  | Payment
  | ApplicationCall
deriving DecidableEq, Repr

/-- The parts of the transaction-group context read by `amount_funded`
(contracts.py lines 167-181): the group shape and the fields of the group's
first transaction, plus the app's derived address (addresses as `Nat`). -/
structure GroupCtx where
  group_size : Nat
  group_index : Nat
  gtxn0_type_enum : TxnType
  gtxn0_receiver : Nat
  gtxn0_amount : Nat
  app_address : Nat
deriving DecidableEq, Repr

/-- `amount_funded` (contracts.py lines 170-181): the amount paid to the
app if the current call is transaction 1 of a 2-transaction group whose
transaction 0 is a payment to the app address, else 0. -/
def amount_funded (c : GroupCtx) : Nat :=
  if c.group_size == 2 && c.group_index == 1
      && c.gtxn0_type_enum == TxnType.Payment
      && c.gtxn0_receiver == c.app_address then
    c.gtxn0_amount
  else
    0

/-- `is_state_voting` (contracts.py lines 183-192): a nominee exists, the
vote has not failed yet, and the time since nomination is inside the
voting window. -/
def is_state_voting (g : GState) (now : Nat) : Bool :=
  g.nominee.isSome
    && decide (g.votes_against * 2 < g.funds_current)
    && decide (now - (g.last_nomination_ts.getD 0) ≤ voting_duration)

/-- `is_state_term` (contracts.py lines 194-211) as the Python source
actually builds it.  The source text of the last conjunct is the chained
comparison
`voting_duration < timestamp - last_nomination_ts <= voting_duration + term_duration`;
Python evaluates a chained comparison `a < b <= c` as `(a < b) and (b <= c)`,
and since `a < b` is a PyTEAL `Expr` object (always truthy — `Expr`
defines no `__bool__`), the `and` returns only the trailing comparison.
The expression handed to `tl.And` is therefore just
`timestamp - last_nomination_ts <= voting_duration + term_duration`:
the lower bound is silently dropped from the compiled program. -/
def is_state_term (g : GState) (now : Nat) : Bool :=
  !(is_state_voting g now)
    && g.nominee.isSome
    && decide (g.votes_for * 2 > g.funds_current)
    && (decide (g.term_used < g.term_budget) && decide (g.term_used < g.votes_for))
    && decide (now - (g.last_nomination_ts.getD 0) ≤ voting_duration + term_duration)

/-- The term-window predicate as the spec words it (spec §4.4: "NOT voting
AND nominee exists AND `votes_for * 2 > funds_current` AND
`term_used < term_budget` AND `term_used < votes_for` AND
`voting_duration < now - last_nomination_ts ≤ voting_duration + term_duration`"),
written with both bounds of the time window for comparison with
`is_state_term`, and used as the guard of the spec-modelled
`withdraw_funds`. -/
def is_state_term_spec (g : GState) (now : Nat) : Bool :=
  !(is_state_voting g now)
    && g.nominee.isSome
    && decide (g.votes_for * 2 > g.funds_current)
    && (decide (g.term_used < g.term_budget) && decide (g.term_used < g.votes_for))
    && decide (voting_duration < now - (g.last_nomination_ts.getD 0))
    && decide (now - (g.last_nomination_ts.getD 0) ≤ voting_duration + term_duration)

/-- `is_valid_nomination` (contracts.py lines 213-223): outside both the
voting and term windows, and outside the sender's cooldown (no cooldown if
the account never nominated). -/
def is_valid_nomination (g : GState) (l : LState) (now : Nat) : Bool :=
  !(is_state_voting g now)
    && !(is_state_term g now)
    && (if l.last_nomination_ts.isSome then
          decide (now - (l.last_nomination_ts.getD 0) > cooldown)
        else
          true)

/-- `remove_vote` (contracts.py lines 226-243): if the account's last vote
was cast in the current voting period, remove its local vote weights from
the global tallies; in any case zero the local vote.  The guard's inner
`If` yields false when `last_vote_ts` was never set. -/
def remove_vote (g : GState) (l : LState) (now : Nat) : GState × LState :=
  let cast_in_period : Bool :=
    if l.last_vote_ts.isSome then
      decide (now - (l.last_vote_ts.getD 0) ≤ voting_duration)
    else
      false
  let g' :=
    if cast_in_period then
      { g with
        votes_for := g.votes_for - l.votes_for
        votes_against := g.votes_against - l.votes_against }
    else
      g
  (g', { l with votes_for := 0, votes_against := 0 })

/-- `update_funds` (contracts.py lines 246-254): shift the account's funds
added before the last nomination into the current voting period. -/
def update_funds (g : GState) (l : LState) : LState :=
  if l.last_funds_ts.getD 0 < g.last_nomination_ts.getD 0 then
    { l with
      funds_current := l.funds_current + l.funds_future
      funds_future := 0 }
  else
    l

/-- The `nominate` invocation body (contracts.py lines 258-285), as a
function of the global state, the sender's local state, the ledger
timestamp, the budget argument (`Btoi(Txn.application_args[1])`) and the
sender address.  The third component is the body's return value; on the
`Return(zero)` path no storage write has happened, so the input states are
returned unchanged (which also matches the engine's rollback of a body
returning 0). -/
def nominate_body (g : GState) (l : LState) (now : Nat) (budget : Nat)
    (sender : Nat) : GState × LState × Nat :=
  if is_valid_nomination g l now then
    ({ g with
        funds_current := g.funds_current + g.funds_future
        funds_future := 0
        votes_for := 0
        votes_against := 0
        term_used := 0
        term_budget := budget
        nominee := some sender
        last_nomination_ts := some now },
      { l with last_nomination_ts := some now },
      1)
  else
    (g, l, 0)

/-- The `vote_for` invocation body (contracts.py lines 287-305): inside
the voting window, clear the previous vote, migrate pending funds, then
add the account's (migrated) `funds_current` to the global `votes_for`
tally and record it as the local vote. -/
def vote_for_body (g : GState) (l : LState) (now : Nat) :
    GState × LState × Nat :=
  if is_state_voting g now then
    let gl := remove_vote g l now
    let l2 := update_funds gl.1 gl.2
    ({ gl.1 with votes_for := gl.1.votes_for + l2.funds_current },
      { l2 with votes_for := l2.funds_current },
      1)
  else
    (g, l, 0)

/-- The `vote_against` invocation body (contracts.py lines 307-325),
mirror of `vote_for`. -/
def vote_against_body (g : GState) (l : LState) (now : Nat) :
    GState × LState × Nat :=
  if is_state_voting g now then
    let gl := remove_vote g l now
    let l2 := update_funds gl.1 gl.2
    ({ gl.1 with votes_against := gl.1.votes_against + l2.funds_current },
      { l2 with votes_against := l2.funds_current },
      1)
  else
    (g, l, 0)

/-- The `add_funds` invocation body (contracts.py lines 327-340): add the
group-funded amount to global and local `funds_future`, migrating pending
local funds in between, and finally
`locals.inc("last_funds_ts", timestamp)` — which by `StateBuilder.inc`
*adds* the timestamp to the stored value
(`localPut(k, localGetEx(k).value() + timestamp)`, with value 0 when the
key is absent) rather than storing the timestamp.  The body returns 1
unconditionally. -/
def add_funds_body (g : GState) (l : LState) (now : Nat) (c : GroupCtx) :
    GState × LState × Nat :=
  let amt := amount_funded c
  let g1 := { g with funds_future := g.funds_future + amt }
  let l1 := update_funds g1 l
  let l2 := { l1 with funds_future := l1.funds_future + amt }
  let l3 := { l2 with last_funds_ts := some (l2.last_funds_ts.getD 0 + now) }
  (g1, l3, 1)

/-- The `on_close_out` body, also used as the clear program
(contracts.py lines 349-358): remove the account's current vote, migrate
pending funds, then `globals.dec("funds_current", globals.get("funds_current"))`
and `globals.dec("funds_future", globals.get("funds_future"))` — each
global counter is decremented by *its own current global value*, written
below exactly as the source composes it. -/
def on_close_out_body (g : GState) (l : LState) (now : Nat) :
    GState × LState × Nat :=
  let gl := remove_vote g l now
  let l2 := update_funds gl.1 gl.2
  let g2 := { gl.1 with funds_current := gl.1.funds_current - gl.1.funds_current }
  let g3 := { g2 with funds_future := g2.funds_future - g2.funds_future }
  (g3, l2, 1)

/-- A nested payment issued by the program: receiver and amount. -/
structure InnerPayment where
  receiver : Nat
  amount : Nat
deriving DecidableEq, Repr

/-- Modelled from the spec: the `withdraw_funds` action is absent from the
source (contracts.py line 342 leaves it as the TODO "extract funds during
term", and the repository's test for it is an empty stub), so its body is
taken from spec §4.4: "`withdraw_funds(amount)`: valid only in term
window, only for the current nominee, and only if
`amount ≤ min(term_budget, votes_for) − term_used`.  Effect: issue one
nested payment of `amount` to the nominee, increment term_used by
`amount`."  The guard uses the spec's own term-window predicate
`is_state_term_spec`; the sender must equal the stored nominee, so the
nested payment to the nominee is written with the sender address. -/
def withdraw_funds_body (g : GState) (now : Nat) (sender : Nat)
    (amount : Nat) : GState × List InnerPayment × Nat :=
  if is_state_term_spec g now && g.nominee == some sender
      && decide (amount ≤ min g.term_budget g.votes_for - g.term_used) then
    ({ g with term_used := g.term_used + amount }, [⟨sender, amount⟩], 1)
  else
    (g, [], 0)

/-! ### `utils.new_app_info` (utils.py lines 282-374)

The branch compiler receives the lifecycle bodies (each possibly `None` —
Python's `if on_create:` etc. tests truthiness, and a PyTEAL `Expr` is
always truthy while `None` is falsy, so a branch is emitted exactly when a
body was provided) and the named invocations, and assembles the list of
`[guard, body]` pairs handed to `tl.Cond`.  Bodies are kept abstract (a
type parameter), guards are kept as a small syntax so the emitted order is
observable, and `tl.Cond`'s first-match evaluation is `evalCond`. -/

/-- The transaction `OnComplete` codes. -/
inductive OnCompletion where
  | NoOp
  | OptIn
  | CloseOut
  | ClearState
  | UpdateApplication
  | DeleteApplication
deriving DecidableEq, Repr

/-- The transaction fields the assembled guards read. -/
structure Txn where
  application_id : Nat
  on_completion : OnCompletion
  application_args : List String
deriving DecidableEq, Repr

/-- The guards `new_app_info` emits (utils.py lines 329-365). -/
inductive Guard where
  | isCreate
  | isDelete
  | isUpdate
  | isOptIn
  | isCloseOut
  | isInvocation (name : String)
  | always
deriving DecidableEq, Repr

/-- Guard evaluation.  The invocation guard (utils.py lines 353-359) is
`And(Txn.on_completion() == NoOp, If(Txn.application_args.length() >= 1).Then(Txn.application_args[0] == Bytes(name)).Else(zero))`:
a call with no arguments is a non-match, not an error. -/
def evalGuard (g : Guard) (t : Txn) : Bool :=
  match g with
  | .isCreate => t.application_id == 0
  | .isDelete => t.on_completion == OnCompletion.DeleteApplication
  | .isUpdate => t.on_completion == OnCompletion.UpdateApplication
  | .isOptIn => t.on_completion == OnCompletion.OptIn
  | .isCloseOut => t.on_completion == OnCompletion.CloseOut
  | .isInvocation name =>
    (t.on_completion == OnCompletion.NoOp)
      && (if 1 ≤ t.application_args.length then
            t.application_args.headD "" == name
          else
            false)
  | .always => true

/-- A branch body: a provided expression, or the fallback's
`tl.Return(zero)`. -/
inductive Body (β : Type) where
  | expr (b : β)
  | reject
deriving DecidableEq, Repr

/-- The branch emitted for one lifecycle body: present iff the body is
truthy (utils.py lines 329-344). -/
def lifecycleBranch {β : Type} (g : Guard) :
    Option β → List (Guard × Body β)
  | some b => [(g, Body.expr b)]
  | none => []

/-- The result of `utils.new_app_info` with the approval program kept as
the branch list handed to `tl.Cond`. -/
structure AppBuildInfo (β : Type) where
  approval : List (Guard × Body β)
  clear : β
  global_schema : StateSchema
  local_schema : StateSchema

/-- `utils.new_app_info` (utils.py lines 282-374): append the lifecycle
branches in the fixed order creation, deletion, update, opt-in, close-out,
then one invocation branch per named action in declaration order (the
Python dict preserves insertion order), then the always-true reject
fallback. -/
def new_app_info {β : Type} (on_create on_delete on_update on_opt_in
    on_close_out : Option β) (on_clear : β)
    (invokations : List (String × β))
    (global_schema local_schema : StateSchema) : AppBuildInfo β :=
  { approval :=
      lifecycleBranch Guard.isCreate on_create
        ++ lifecycleBranch Guard.isDelete on_delete
        ++ lifecycleBranch Guard.isUpdate on_update
        ++ lifecycleBranch Guard.isOptIn on_opt_in
        ++ lifecycleBranch Guard.isCloseOut on_close_out
        ++ invokations.map (fun p => (Guard.isInvocation p.1, Body.expr p.2))
        ++ [(Guard.always, Body.reject)]
    clear := on_clear
    global_schema := global_schema
    local_schema := local_schema }

/-- `tl.Cond` evaluation: the body of the first branch whose guard holds
is the only one evaluated (`none` would be a failed `Cond`; with the
always-true fallback present some guard always matches). -/
def evalCond {β : Type} : List (Guard × Body β) → Txn → Option (Body β)
  | [], _ => none
  | (g, b) :: rest, t => if evalGuard g t then some b else evalCond rest t

/-! ### The treasury app's `new_app_info` call (contracts.py lines 360-368)

`new_app_info` declares nine parameters, none with a default
(utils.py lines 282-292); the call in `build_distributed_treasury_app`
binds only seven of them by keyword, so Python raises
`TypeError: new_app_info() missing 2 required positional arguments:
'on_delete' and 'on_update'` before any app info is produced. -/

/-- The parameters of `utils.new_app_info` (utils.py lines 283-291); the
Python signature gives none of them a default value, so all are required. -/
def new_app_info_required_params : List String :=
  ["on_create", "on_delete", "on_update", "on_opt_in", "on_close_out",
    "on_clear", "invokations", "global_schema", "local_schema"]

/-- The keyword arguments supplied by the `utils.new_app_info(...)` call
in `build_distributed_treasury_app` (contracts.py lines 360-368). -/
def treasury_call_kwargs : List String :=
  ["on_create", "on_opt_in", "on_close_out", "on_clear", "invokations",
    "global_schema", "local_schema"]

/-- Python call semantics: a call binds without `TypeError` exactly when
every required parameter receives an argument. -/
def callBindsAllRequired (required provided : List String) : Bool :=
  required.all (fun p => provided.contains p)

/-- The key declarations of the treasury app's global `StateBuilder`
(contracts.py lines 123-137): six eager `tl.Int` keys with default 0, then
the optional `nominee` (`tl.Bytes`) and `last_nomination_ts` (`tl.Int`). -/
def treasuryGlobalKeys : List KeyInfo :=
  [⟨"funds_current", TealType.int, some (StateVal.int 0)⟩,
    ⟨"funds_future", TealType.int, some (StateVal.int 0)⟩,
    ⟨"votes_for", TealType.int, some (StateVal.int 0)⟩,
    ⟨"votes_against", TealType.int, some (StateVal.int 0)⟩,
    ⟨"term_used", TealType.int, some (StateVal.int 0)⟩,
    ⟨"term_budget", TealType.int, some (StateVal.int 0)⟩,
    ⟨"nominee", TealType.bytes, none⟩,
    ⟨"last_nomination_ts", TealType.int, none⟩]

/-- The key declarations of the treasury app's local `StateBuilder`
(contracts.py lines 139-152). -/
def treasuryLocalKeys : List KeyInfo :=
  [⟨"funds_current", TealType.int, some (StateVal.int 0)⟩,
    ⟨"funds_future", TealType.int, some (StateVal.int 0)⟩,
    ⟨"votes_for", TealType.int, some (StateVal.int 0)⟩,
    ⟨"votes_against", TealType.int, some (StateVal.int 0)⟩,
    ⟨"last_nomination_ts", TealType.int, none⟩,
    ⟨"last_vote_ts", TealType.int, none⟩,
    ⟨"last_funds_ts", TealType.int, none⟩]

/-- The app info that the `new_app_info` call of
`build_distributed_treasury_app` evidently intends (its invocation dict in
declaration order, no update or delete body — the call as written raises a
`TypeError`, see the C4 theorem, so the two missing arguments are taken as
`None` here exactly as the spec describes the policy).  Bodies are
identified by name; their state semantics are the `*_body` definitions
above. -/
def treasury_app_info : AppBuildInfo String :=
  new_app_info
    (some "on_create") none none (some "on_opt_in") (some "on_close_out")
    "on_close_out"
    [("nominate", "nominate_body"), ("vote_for", "vote_for_body"),
      ("vote_against", "vote_against_body"), ("add_funds", "add_funds_body")]
    ⟨7, 1⟩ ⟨7, 0⟩

/-! ### Concrete states used by the claim theorems and witnesses -/

/-- A global state in which a nomination happened 10 seconds ago and the
early votes already make `votes_for * 2 > funds_current` while
`votes_against * 2 < funds_current` fails (funds_current = 0). -/
def g_c1 : GState :=
  ⟨0, 0, 5, 0, 0, 20, some 3, some 1000⟩

/-- A pool holding 15 from two accounts (10 and 5) plus 5 pending, and the
closing account's local record holding its contribution of 10 plus 2
pending.  `last_funds_ts` is newer than the nomination so no migration
fires. -/
def g_c2 : GState :=
  ⟨15, 5, 0, 0, 0, 0, some 1, some 1000⟩

/-- See `g_c2`. -/
def l_c2 : LState :=
  ⟨10, 2, 0, 0, none, none, some 2000⟩

/-- The spec's withdrawal scenario: `term_budget = 20`, `votes_for = 15`,
`term_used = 0`, nominee account 7, nomination at 1000 (so time 1040 is in
the term window). -/
def g_c3 : GState :=
  ⟨20, 0, 15, 0, 0, 20, some 7, some 1000⟩

def g_c5 : GState :=
  ⟨0, 0, 0, 0, 0, 0, none, none⟩

/-- An account that already holds `last_funds_ts = 100` from an earlier
`add_funds` call. -/
def l_c5 : LState :=
  ⟨0, 0, 0, 0, none, none, some 100⟩

/-- A correctly paired funding group: this call is transaction 1 of 2 and
transaction 0 pays 7 to the app address (77). -/
def ctx_grouped : GroupCtx :=
  ⟨2, 1, TxnType.Payment, 77, 7, 77⟩

/-- A lone `add_funds` call with no paired payment. -/
def ctx_ungrouped : GroupCtx :=
  ⟨1, 0, TxnType.Payment, 77, 7, 77⟩

/-- Treasury with 15 of future funds before the nomination that starts the
C6 voting scenario. -/
def g_c6 : GState :=
  ⟨0, 15, 0, 0, 0, 0, none, none⟩

/-- The nominating account's fresh local state. -/
def nominator_l : LState :=
  ⟨0, 0, 0, 0, none, none, none⟩

/-- The voting account: 10 of funds added (before the nomination, at time
500) and never voted. -/
def voter_l : LState :=
  ⟨0, 10, 0, 0, none, none, some 500⟩

/-- A small key set for witnesses: one eager integer key, one optional
bytes key. -/
def demoKeys : List KeyInfo :=
  [⟨"a", TealType.int, some (StateVal.int 0)⟩,
    ⟨"b", TealType.bytes, none⟩]

/-- The builder `StateBuilder.make Scope.GLOBAL demoKeys false` returns. -/
def demoBuilder : StateBuilder :=
  ⟨Scope.GLOBAL, false,
    [("a", ⟨"a", TealType.int, some (StateVal.int 0)⟩),
      ("b", ⟨"b", TealType.bytes, none⟩)],
    ["a", "b"], ["a"], ["b"]⟩

/-- A single key whose name is 65 ASCII characters, hence 65 utf-8 bytes. -/
def longKeyList : List KeyInfo :=
  [⟨"aaaaaaaaaaaaaaaaaaaaaaaaaaaaaaaaaaaaaaaaaaaaaaaaaaaaaaaaaaaaaaaaa",
     TealType.int, none⟩]

/-- The guard sequence contributed by one optional lifecycle body:
`[g]` when a body is provided, nothing otherwise. -/
def guardOf {β : Type} (g : Guard) (o : Option β) : List Guard :=
  match o with
  | some _ => [g]
  | none => []

/-! ## Theorems -/

/-- `evalCond` selects the first branch whose guard holds: the guards
before it all failing, that branch's body is the result, whatever
follows. -/
theorem evalCond_first_match {β : Type} (bs1 : List (Guard × Body β))
    (bs2 : List (Guard × Body β)) (g : Guard) (b : Body β) (t : Txn)
    (h : ∀ p ∈ bs1, evalGuard p.1 t = false) (hg : evalGuard g t = true) :
    evalCond (bs1 ++ (g, b) :: bs2) t = some b := by
  induction bs1 with
  | nil => simp [evalCond, hg]
  | cons p rest ih =>
    obtain ⟨pg, pb⟩ := p
    have hp : evalGuard pg t = false := h (pg, pb) (List.mem_cons_self _ _)
    simp only [List.cons_append, evalCond, hp, Bool.false_eq_true, if_false]
    exact ih fun q hq => h q (List.mem_cons_of_mem _ hq)

/-- C10: `fix_lease_size` always returns exactly 32 bytes: longer inputs
are truncated to their first 32 bytes, shorter inputs are right-padded
with zero bytes, and a 32-byte input is returned unchanged. -/
theorem C10_fix_lease_size (lease : List Nat) :
    (fix_lease_size lease).length = 32
    ∧ (32 ≤ lease.length → fix_lease_size lease = lease.take 32)
    ∧ (lease.length ≤ 32 →
        fix_lease_size lease = lease ++ List.replicate (32 - lease.length) 0)
    ∧ (lease.length = 32 → fix_lease_size lease = lease) := by
  refine ⟨?_, ?_, ?_, ?_⟩
  · simp only [fix_lease_size, LEASE_LENGTH, List.length_append,
      List.length_replicate, List.length_take]
    omega
  · intro h
    simp [fix_lease_size, LEASE_LENGTH, List.length_take,
      Nat.min_eq_left h, Nat.sub_self]
  · intro h
    simp [fix_lease_size, LEASE_LENGTH, List.take_of_length_le h]
  · intro h
    simp [fix_lease_size, LEASE_LENGTH, List.take_of_length_le h.le, h]

theorem C10_witness :
    (32 ≤ (List.replicate 40 (5 : Nat)).length
      ∧ fix_lease_size (List.replicate 40 (5 : Nat))
          = (List.replicate 40 (5 : Nat)).take 32)
    ∧ ((List.replicate 3 (9 : Nat)).length ≤ 32
      ∧ fix_lease_size (List.replicate 3 (9 : Nat))
          = List.replicate 3 (9 : Nat)
              ++ List.replicate (32 - (List.replicate 3 (9 : Nat)).length) 0) :=
  ⟨⟨by decide, (C10_fix_lease_size (List.replicate 40 5)).2.1 (by decide)⟩,
    ⟨by decide, (C10_fix_lease_size (List.replicate 3 9)).2.2.1 (by decide)⟩⟩

/-- C1: the claim states that the term-window predicate requires
`voting_duration < now - last_nomination_ts`, so that it is false whenever
the elapsed time is at most `voting_duration`.  The source writes that
lower bound as part of a Python chained comparison
(contracts.py lines 208-210), which Python reduces to the trailing
comparison alone because the intermediate PyTEAL `Expr` is always truthy;
the compiled predicate therefore keeps only the upper bound.  At `g_c1`
(nominee present, `votes_for * 2 > funds_current`, `term_used` below both
caps) and elapsed time 10 ≤ `voting_duration`, the predicate the code
builds is true, while the predicate the claim and the code's own comment
("time since nomination is in term window") describe is false. -/
theorem C1_term_window_lower_bound_dropped :
    is_state_term g_c1 1010 = true
    ∧ 1010 - 1000 ≤ voting_duration
    ∧ is_state_term_spec g_c1 1010 = false := by
  refine ⟨by decide, by decide, by decide⟩

/-- C2 (counterexample): the claim says close-out decreases the global
funds by the closing account's local values; at `g_c2`/`l_c2` that would
leave `funds_current = 15 - 10 = 5`, but the body subtracts each global
counter from itself, leaving 0. -/
theorem C2_counterexample :
    ((on_close_out_body g_c2 l_c2 1100).1.funds_current = 0
      ∧ g_c2.funds_current - l_c2.funds_current = 5)
    ∧ ¬ (on_close_out_body g_c2 l_c2 1100).1.funds_current
          = g_c2.funds_current - l_c2.funds_current := by
  refine ⟨⟨by decide, by decide⟩, by decide⟩

/-- C2 (amended): for every account state, the close-out (and clear) body
first removes the account's current vote from the global tallies
(`remove_vote`), then migrates the account's pending local funds
(`update_funds`), and then sets global `funds_current` and `funds_future`
to zero by subtracting each counter's own current global value — the whole
pool is cleared, regardless of the account's local contribution — and the
body returns 1. -/
theorem C2_close_out_clears_pool (g : GState) (l : LState) (now : Nat) :
    (on_close_out_body g l now).1.funds_current = 0
    ∧ (on_close_out_body g l now).1.funds_future = 0
    ∧ (on_close_out_body g l now).1.votes_for
        = (remove_vote g l now).1.votes_for
    ∧ (on_close_out_body g l now).1.votes_against
        = (remove_vote g l now).1.votes_against
    ∧ (on_close_out_body g l now).2.1
        = update_funds (remove_vote g l now).1 (remove_vote g l now).2
    ∧ (on_close_out_body g l now).2.2 = 1 := by
  refine ⟨?_, ?_, rfl, rfl, rfl, rfl⟩
  · simp [on_close_out_body]
  · simp [on_close_out_body]

/-- C3: the spec-modelled `withdraw_funds` succeeds only in the (spec's)
term window, only for the current nominee, and only for an amount within
`min(term_budget, votes_for) - term_used`; on success it issues exactly
one nested payment of the amount to the nominee and increments
`term_used`.  In the spec's scenario (`term_budget = 20`, `votes_for = 15`,
`term_used = 0`), withdrawing 15 succeeds and sets `term_used = 15`, and a
subsequent withdrawal of 1 in the same term fails. -/
theorem C3_withdraw_funds :
    (∀ (g : GState) (now s a : Nat), is_state_term_spec g now = false →
        (withdraw_funds_body g now s a).2.2 = 0)
    ∧ (∀ (g : GState) (now s a : Nat), g.nominee ≠ some s →
        (withdraw_funds_body g now s a).2.2 = 0)
    ∧ (∀ (g : GState) (now s a : Nat),
        ¬ a ≤ min g.term_budget g.votes_for - g.term_used →
        (withdraw_funds_body g now s a).2.2 = 0)
    ∧ (∀ (g : GState) (now s a : Nat),
        (withdraw_funds_body g now s a).2.2 = 1 →
        withdraw_funds_body g now s a
          = ({ g with term_used := g.term_used + a },
              [⟨s, a⟩], 1))
    ∧ withdraw_funds_body g_c3 1040 7 15
        = ({ g_c3 with term_used := 15 }, [⟨7, 15⟩], 1)
    ∧ (withdraw_funds_body { g_c3 with term_used := 15 } 1040 7 1).2.2 = 0 := by
  refine ⟨?_, ?_, ?_, ?_, by decide, by decide⟩
  · intro g now s a h
    simp [withdraw_funds_body, h]
  · intro g now s a h
    have : (g.nominee == some s) = false := by
      simpa using h
    simp [withdraw_funds_body, this]
  · intro g now s a h
    simp [withdraw_funds_body, h]
  · intro g now s a h
    by_cases hg : (is_state_term_spec g now && g.nominee == some s
        && decide (a ≤ min g.term_budget g.votes_for - g.term_used)) = true
    · simp [withdraw_funds_body, hg]
    · exfalso
      simp only [withdraw_funds_body, Bool.not_eq_true] at h hg
      rw [hg] at h
      simp at h

theorem C3_witness :
    (withdraw_funds_body g_c3 1000 7 1).2.2 = 0
    ∧ (withdraw_funds_body g_c3 1040 8 1).2.2 = 0
    ∧ withdraw_funds_body g_c3 1040 7 15
        = ({ g_c3 with term_used := 15 }, [⟨7, 15⟩], 1) :=
  ⟨C3_withdraw_funds.1 g_c3 1000 7 1 (by decide),
    C3_withdraw_funds.2.1 g_c3 1040 8 1 (by decide),
    C3_withdraw_funds.2.2.2.2.1⟩

/-- C5: at the failing input, the group-funded amount is tracked exactly
(global and local `funds_future` each grow by the paid 7 when the group is
well-formed and by 0 otherwise, the body returning 1 either way), but the
final step `locals.inc("last_funds_ts", timestamp)` *adds* the ledger
timestamp to the stored value instead of storing it: an account with
`last_funds_ts = 100` calling `add_funds` at time 200 ends with
`last_funds_ts = 300`, not the 200 the claim (and the spec's "stamps")
require. -/
theorem C5_add_funds_timestamp_incremented :
    (add_funds_body g_c5 l_c5 200 ctx_grouped).1.funds_future
        = g_c5.funds_future + 7
    ∧ (add_funds_body g_c5 l_c5 200 ctx_grouped).2.1.funds_future
        = l_c5.funds_future + 7
    ∧ (add_funds_body g_c5 l_c5 200 ctx_ungrouped).1.funds_future
        = g_c5.funds_future
    ∧ (add_funds_body g_c5 l_c5 200 ctx_ungrouped).2.1.funds_future
        = l_c5.funds_future
    ∧ (add_funds_body g_c5 l_c5 200 ctx_ungrouped).2.2 = 1
    ∧ (add_funds_body g_c5 l_c5 200 ctx_grouped).2.2 = 1
    ∧ (add_funds_body g_c5 l_c5 200 ctx_grouped).2.1.last_funds_ts = some 300
    ∧ ¬ (add_funds_body g_c5 l_c5 200 ctx_grouped).2.1.last_funds_ts
          = some 200 := by
  refine ⟨by decide, by decide, by decide, by decide, by decide, by decide,
    by decide, by decide⟩

/-- C6: after a valid nomination at time 1000 (budget 20 by account 1,
moving the 15 of future funds into `funds_current`), the voter's first
`vote_for` at time 1010 succeeds and adds its migrated
`funds_current = 10` to the global tally.  The claim then requires the same
voter's second `vote_for` at 1020 to retract the first weight, leaving the
tally at 10; but no action ever writes `last_vote_ts`, so the retraction
guard in `remove_vote` (contracts.py lines 229-233) can never hold and the
second call adds the weight again: the global tally ends at 20. -/
theorem C6_second_vote_double_counts :
    (nominate_body g_c6 nominator_l 1000 20 1).2.2 = 1
    ∧ (nominate_body g_c6 nominator_l 1000 20 1).1.funds_current = 15
    ∧ ((vote_for_body (nominate_body g_c6 nominator_l 1000 20 1).1
          voter_l 1010).2.2 = 1
      ∧ (vote_for_body (nominate_body g_c6 nominator_l 1000 20 1).1
          voter_l 1010).1.votes_for = 10)
    ∧ ((vote_for_body
          (vote_for_body (nominate_body g_c6 nominator_l 1000 20 1).1
            voter_l 1010).1
          (vote_for_body (nominate_body g_c6 nominator_l 1000 20 1).1
            voter_l 1010).2.1
          1020).2.2 = 1
      ∧ (vote_for_body
          (vote_for_body (nominate_body g_c6 nominator_l 1000 20 1).1
            voter_l 1010).1
          (vote_for_body (nominate_body g_c6 nominator_l 1000 20 1).1
            voter_l 1010).2.1
          1020).1.votes_for = 20)
    ∧ ¬ (20 : Nat) = 10 := by
  refine ⟨by decide, by decide, ⟨by decide, by decide⟩,
    ⟨by decide, by decide⟩, by decide⟩

/-- C7: for every choice of lifecycle bodies and named actions,
`new_app_info` emits its guards in exactly the order creation, deletion,
update, opt-in, close-out (each present iff its body is), then the named
actions in declaration order, then the always-true fallback, whose branch
carries the rejecting body; the decision expression returns the body of
the first matching guard only; and an invocation guard evaluated on a call
with an empty argument list is a non-match, not an error. -/
theorem C7_branch_compiler :
    (∀ (β : Type) (oc od ou oi ocl : Option β) (cl : β)
        (inv : List (String × β)) (gs ls : StateSchema),
        (new_app_info oc od ou oi ocl cl inv gs ls).approval.map Prod.fst
          = guardOf Guard.isCreate oc ++ guardOf Guard.isDelete od
            ++ guardOf Guard.isUpdate ou ++ guardOf Guard.isOptIn oi
            ++ guardOf Guard.isCloseOut ocl
            ++ inv.map (fun p => Guard.isInvocation p.1) ++ [Guard.always]
        ∧ (new_app_info oc od ou oi ocl cl inv gs ls).approval.getLast?
            = some (Guard.always, Body.reject))
    ∧ (∀ (β : Type) (bs1 bs2 : List (Guard × Body β)) (g : Guard)
        (b : Body β) (t : Txn),
        (∀ p ∈ bs1, evalGuard p.1 t = false) → evalGuard g t = true →
        evalCond (bs1 ++ (g, b) :: bs2) t = some b)
    ∧ (∀ (name : String) (t : Txn), t.application_args = [] →
        evalGuard (Guard.isInvocation name) t = false) := by
  refine ⟨?_, ?_, ?_⟩
  · intro β oc od ou oi ocl cl inv gs ls
    constructor
    · cases oc <;> cases od <;> cases ou <;> cases oi <;> cases ocl <;>
        simp [new_app_info, lifecycleBranch, guardOf]
    · exact List.getLast?_concat _
  · intro β bs1 bs2 g b t h hg
    exact evalCond_first_match bs1 bs2 g b t h hg
  · intro name t h
    simp [evalGuard, h]

theorem C7_witness :
    evalCond ([(Guard.isCreate, Body.expr "on_create")]
        ++ (Guard.isInvocation "add_funds", Body.expr "add_funds_body")
          :: [(Guard.always, Body.reject)])
      ⟨1, OnCompletion.NoOp, ["add_funds"]⟩ = some (Body.expr "add_funds_body")
    ∧ evalGuard (Guard.isInvocation "nominate")
        ⟨1, OnCompletion.NoOp, []⟩ = false :=
  ⟨C7_branch_compiler.2.1 String [(Guard.isCreate, Body.expr "on_create")]
      [(Guard.always, Body.reject)] (Guard.isInvocation "add_funds")
      (Body.expr "add_funds_body") ⟨1, OnCompletion.NoOp, ["add_funds"]⟩
      (by decide) (by decide),
    C7_branch_compiler.2.2 "nominate" ⟨1, OnCompletion.NoOp, []⟩ rfl⟩

/-- C4: the claim's first half fails on the code: `new_app_info` declares
nine parameters without defaults (so all are required), and the call in
`build_distributed_treasury_app` (contracts.py lines 360-368) binds only
seven of them, omitting `on_delete` and `on_update` — the call raises
`TypeError` and no app info is ever produced.  The second half is the
evident intent and holds for the branch list the call describes (missing
bodies taken as `None`): an update or delete request matches no emitted
guard and reaches the always-true fallback, which rejects. -/
theorem C4_treasury_app_info :
    callBindsAllRequired new_app_info_required_params treasury_call_kwargs
        = false
    ∧ treasury_call_kwargs.contains "on_delete" = false
    ∧ treasury_call_kwargs.contains "on_update" = false
    ∧ (∀ args : List String,
        evalCond treasury_app_info.approval
          ⟨1, OnCompletion.UpdateApplication, args⟩ = some Body.reject)
    ∧ (∀ args : List String,
        evalCond treasury_app_info.approval
          ⟨1, OnCompletion.DeleteApplication, args⟩ = some Body.reject) := by
  refine ⟨by decide, by decide, by decide, ?_, ?_⟩
  · intro args
    simp [treasury_app_info, new_app_info, lifecycleBranch, evalCond,
      evalGuard]
  · intro args
    simp [treasury_app_info, new_app_info, lifecycleBranch, evalCond,
      evalGuard]

/-- Membership after a dict-style name insert comes from the old dict or
is the inserted name. -/
theorem nameInsert_contains (l : List String) (k' k : String)
    (h : (nameInsert l k').contains k = true) :
    l.contains k = true ∨ k' = k := by
  simp only [nameInsert] at h
  by_cases hc : (l.contains k') = true
  · rw [if_pos hc] at h
    exact Or.inl h
  · rw [if_neg hc] at h
    have hm : k ∈ l ++ [k'] := by
      simpa using h
    rcases List.mem_append.mp hm with hm' | hm'
    · left
      simpa using hm'
    · right
      exact (List.mem_singleton.mp hm').symm

/-- Every name in the dictionaries of a successfully constructed builder
was already there or is the key of one of the processed `KeyInfo`s. -/
theorem initLoop_domains (l : List KeyInfo) : ∀ (sb sb' : StateBuilder),
    initLoop sb l = Except.ok sb' → ∀ k : String,
    (sb'.bytes.contains k = true →
      sb.bytes.contains k = true ∨ l.any (fun i => i.key == k) = true)
    ∧ (sb'.loader.contains k = true →
      sb.loader.contains k = true ∨ l.any (fun i => i.key == k) = true)
    ∧ (sb'.loader_ex.contains k = true →
      sb.loader_ex.contains k = true ∨ l.any (fun i => i.key == k) = true) := by
  induction l with
  | nil =>
    intro sb sb' h k
    simp only [initLoop] at h
    injection h with h
    subst h
    exact ⟨fun hb => Or.inl hb, fun hb => Or.inl hb, fun hb => Or.inl hb⟩
  | cons info rest ih =>
    intro sb sb' h k
    simp only [initLoop] at h
    by_cases h1 : 64 < info.key.utf8ByteSize
    · rw [if_pos h1] at h
      simp at h
    · rw [if_neg h1] at h
      by_cases h2 : (sb.is_foreign && info.init.isSome) = true
      · rw [if_pos h2] at h
        simp at h
      · rw [if_neg h2] at h
        have H := ih (addKey sb info) sb' h k
        have mk_any : info.key = k → (info :: rest).any (fun i => i.key == k) = true := by
          intro he
          simp [List.any_cons, he]
        have rest_any : rest.any (fun i => i.key == k) = true →
            (info :: rest).any (fun i => i.key == k) = true := by
          intro ha
          simp [List.any_cons, ha]
        refine ⟨fun hb => ?_, fun hb => ?_, fun hb => ?_⟩
        · rcases H.1 hb with hh | hh
          · rcases nameInsert_contains sb.bytes info.key k hh with hh' | hh'
            · exact Or.inl hh'
            · exact Or.inr (mk_any hh')
          · exact Or.inr (rest_any hh)
        · rcases H.2.1 hb with hh | hh
          · by_cases hin : info.init.isSome
            · have : (addKey sb info).loader = nameInsert sb.loader info.key := by
                simp [addKey, hin]
              rw [this] at hh
              rcases nameInsert_contains sb.loader info.key k hh with hh' | hh'
              · exact Or.inl hh'
              · exact Or.inr (mk_any hh')
            · have : (addKey sb info).loader = sb.loader := by
                simp [addKey, hin]
              rw [this] at hh
              exact Or.inl hh
          · exact Or.inr (rest_any hh)
        · rcases H.2.2 hb with hh | hh
          · by_cases hin : info.init.isSome
            · have : (addKey sb info).loader_ex = sb.loader_ex := by
                simp [addKey, hin]
              rw [this] at hh
              exact Or.inl hh
            · have : (addKey sb info).loader_ex = nameInsert sb.loader_ex info.key := by
                simp [addKey, hin]
              rw [this] at hh
              rcases nameInsert_contains sb.loader_ex info.key k hh with hh' | hh'
              · exact Or.inl hh'
              · exact Or.inr (mk_any hh')
          · exact Or.inr (rest_any hh)

/-- A key name longer than 64 utf-8 bytes anywhere in the declarations
makes the constructor loop raise. -/
theorem initLoop_err_of_long (l : List KeyInfo) : ∀ sb : StateBuilder,
    (∃ i ∈ l, 64 < i.key.utf8ByteSize) → isErr (initLoop sb l) = true := by
  induction l with
  | nil =>
    intro sb h
    simp at h
  | cons info rest ih =>
    intro sb h
    simp only [initLoop]
    by_cases h1 : 64 < info.key.utf8ByteSize
    · rw [if_pos h1]
      rfl
    · rw [if_neg h1]
      by_cases h2 : (sb.is_foreign && info.init.isSome) = true
      · rw [if_pos h2]
        rfl
      · rw [if_neg h2]
        apply ih
        rcases h with ⟨i, hi, hlen⟩
        rcases List.mem_cons.mp hi with rfl | hi'
        · exact absurd hlen h1
        · exact ⟨i, hi', hlen⟩

/-- A default value on any key of a foreign-app builder makes the
constructor loop raise. -/
theorem initLoop_err_of_foreign (l : List KeyInfo) : ∀ sb : StateBuilder,
    sb.is_foreign = true → (∃ i ∈ l, i.init.isSome = true) →
    isErr (initLoop sb l) = true := by
  induction l with
  | nil =>
    intro sb _ h
    simp at h
  | cons info rest ih =>
    intro sb hf h
    simp only [initLoop]
    by_cases h1 : 64 < info.key.utf8ByteSize
    · rw [if_pos h1]
      rfl
    · rw [if_neg h1]
      by_cases h2 : (sb.is_foreign && info.init.isSome) = true
      · rw [if_pos h2]
        rfl
      · rw [if_neg h2]
        refine ih (addKey sb info) hf ?_
        rcases h with ⟨i, hi, hinit⟩
        rcases List.mem_cons.mp hi with rfl | hi'
        · exact absurd (by rw [hf, hinit]; rfl) h2
        · exact ⟨i, hi', hinit⟩

/-- All five key-addressed builder operations raise for a name absent
from every dictionary. -/
theorem ops_err_of_not_declared (sb : StateBuilder) (k : String) (v : SExpr)
    (hb : sb.bytes.contains k = false)
    (hl : sb.loader.contains k = false)
    (hx : sb.loader_ex.contains k = false) :
    isErr (sb.get k) = true ∧ isErr (sb.set k v) = true
      ∧ isErr (sb.inc k v) = true ∧ isErr (sb.dec k v) = true
      ∧ isErr (sb.maybe k) = true := by
  have hb' : ¬ k ∈ sb.bytes := by
    simpa using hb
  have hl' : ¬ k ∈ sb.loader := by
    simpa using hl
  have hx' : ¬ k ∈ sb.loader_ex := by
    simpa using hx
  have hget : sb.get k = Except.error ("KeyError: " ++ k) := by
    simp [StateBuilder.get, hl', hx']
  refine ⟨by rw [hget]; rfl, by simp [StateBuilder.set, hb', isErr], ?_, ?_,
    by simp [StateBuilder.maybe, hx', isErr]⟩
  · unfold StateBuilder.inc
    rw [hget]
    rfl
  · unfold StateBuilder.dec
    rw [hget]
    rfl

/-- Inserting a fresh name into a Python dict appends it. -/
theorem dictSet_append (d : List (String × KeyInfo)) (k : String)
    (v : KeyInfo) (h : d.any (fun p => p.1 == k) = false) :
    dictSet d k v = d ++ [(k, v)] := by
  simp [dictSet, h]

/-- With pairwise-distinct fresh key names, the constructor loop appends
one `infos` entry per declared key, in declaration order. -/
theorem initLoop_infos (l : List KeyInfo) : ∀ (sb sb' : StateBuilder),
    (l.map KeyInfo.key).Nodup →
    (∀ i ∈ l, sb.infos.any (fun p => p.1 == i.key) = false) →
    initLoop sb l = Except.ok sb' →
    sb'.infos = sb.infos ++ l.map (fun i => (i.key, i)) := by
  induction l with
  | nil =>
    intro sb sb' _ _ h
    simp only [initLoop] at h
    injection h with h
    subst h
    simp
  | cons info rest ih =>
    intro sb sb' hnd hfresh h
    simp only [initLoop] at h
    by_cases h1 : 64 < info.key.utf8ByteSize
    · rw [if_pos h1] at h
      simp at h
    · rw [if_neg h1] at h
      by_cases h2 : (sb.is_foreign && info.init.isSome) = true
      · rw [if_pos h2] at h
        simp at h
      · rw [if_neg h2] at h
        have hfresh_head : sb.infos.any (fun p => p.1 == info.key) = false :=
          hfresh info (List.mem_cons_self _ _)
        have haddinfos : (addKey sb info).infos
            = sb.infos ++ [(info.key, info)] := by
          simp [addKey, dictSet_append _ _ _ hfresh_head]
        have hnd' : (rest.map KeyInfo.key).Nodup :=
          (List.nodup_cons.mp (by simpa using hnd)).2
        have hkey_not : info.key ∉ rest.map KeyInfo.key :=
          (List.nodup_cons.mp (by simpa using hnd)).1
        have hfresh' : ∀ i ∈ rest,
            (addKey sb info).infos.any (fun p => p.1 == i.key) = false := by
          intro i hi
          rw [haddinfos, List.any_append]
          have ha := hfresh i (List.mem_cons_of_mem _ hi)
          have hne : info.key ≠ i.key := by
            intro he
            exact hkey_not (he ▸ List.mem_map_of_mem KeyInfo.key hi)
          simp [ha, hne]
        rw [ih (addKey sb info) sb' hnd' hfresh' h, haddinfos,
          List.append_assoc]
        simp

/-- C9: for every declaration list with distinct key names (keys are
identified by name within a scope), a successfully constructed builder's
`schema()` counts exactly the integer-kind keys as `num_uints` and the
bytes-kind keys as `num_byte_slices` — the counts ignore the eager /
optional distinction, and since no builder operation mutates the instance
(every operation in the embedding is a pure function of it), they are
independent of whatever operations were invoked before. -/
theorem C9_schema_counts (scope : Scope) (fr : Bool) (l : List KeyInfo)
    (sb : StateBuilder) (hnd : (l.map KeyInfo.key).Nodup)
    (hok : StateBuilder.make scope l fr = Except.ok sb) :
    sb.schema = ⟨l.countP (fun i => i.has_type == TealType.int),
        l.countP (fun i => i.has_type == TealType.bytes)⟩ := by
  have hinfos : sb.infos = l.map (fun i => (i.key, i)) := by
    simpa using initLoop_infos l ⟨scope, fr, [], [], [], []⟩ sb hnd
      (fun i _ => rfl) hok
  simp [StateBuilder.schema, hinfos, List.countP_map, Function.comp_def]

theorem C9_witness :
    (StateBuilder.make Scope.GLOBAL demoKeys false).map StateBuilder.schema
      = Except.ok ⟨1, 1⟩ := by
  have h : StateBuilder.make Scope.GLOBAL demoKeys false
      = Except.ok demoBuilder := rfl
  rw [h]
  show Except.ok demoBuilder.schema = Except.ok ⟨1, 1⟩
  rw [C9_schema_counts Scope.GLOBAL false demoKeys demoBuilder
    (by decide) h]
  rfl

/-- C8: constructing a `StateBuilder` with any key name longer than 64
utf-8 bytes raises, constructing one that targets a foreign app with any
defaulted key raises, and on a successfully constructed builder each of
`get`, `set`, `inc`, `dec` and `maybe` raises when called with a key name
that was never declared — none of these conditions passes silently. -/
theorem C8_statebuilder_errors :
    (∀ (scope : Scope) (fr : Bool) (l : List KeyInfo),
        (∃ i ∈ l, 64 < i.key.utf8ByteSize) →
        isErr (StateBuilder.make scope l fr) = true)
    ∧ (∀ (scope : Scope) (l : List KeyInfo),
        (∃ i ∈ l, i.init.isSome = true) →
        isErr (StateBuilder.make scope l true) = true)
    ∧ (∀ (scope : Scope) (fr : Bool) (l : List KeyInfo) (sb : StateBuilder)
        (k : String) (v : SExpr),
        StateBuilder.make scope l fr = Except.ok sb →
        (∀ i ∈ l, ¬ i.key = k) →
        isErr (sb.get k) = true ∧ isErr (sb.set k v) = true
          ∧ isErr (sb.inc k v) = true ∧ isErr (sb.dec k v) = true
          ∧ isErr (sb.maybe k) = true) := by
  refine ⟨?_, ?_, ?_⟩
  · intro scope fr l h
    exact initLoop_err_of_long l _ h
  · intro scope l h
    exact initLoop_err_of_foreign l _ rfl h
  · intro scope fr l sb k v hok hk
    have H := initLoop_domains l ⟨scope, fr, [], [], [], []⟩ sb hok k
    have hany : l.any (fun i => i.key == k) = false := by
      rw [List.any_eq_false]
      intro i hi
      simpa using hk i hi
    have hdom : ∀ b : Bool,
        (b = true → (([] : List String).contains k = true
          ∨ l.any (fun i => i.key == k) = true)) → b = false := by
      intro b hb
      cases hB : b with
      | false => rfl
      | true =>
        rcases hb hB with h' | h'
        · simp at h'
        · rw [hany] at h'
          exact absurd h' (by simp)
    exact ops_err_of_not_declared sb k v (hdom _ H.1) (hdom _ H.2.1)
      (hdom _ H.2.2)

theorem C8_witness :
    isErr (StateBuilder.make Scope.GLOBAL longKeyList false) = true
    ∧ isErr (StateBuilder.make Scope.LOCAL demoKeys true) = true
    ∧ isErr (demoBuilder.get "zzz") = true
    ∧ isErr (demoBuilder.inc "zzz" (SExpr.lit 0)) = true :=
  ⟨C8_statebuilder_errors.1 Scope.GLOBAL false longKeyList (by decide),
    C8_statebuilder_errors.2.1 Scope.LOCAL demoKeys (by decide),
    (C8_statebuilder_errors.2.2 Scope.GLOBAL false demoKeys demoBuilder
      "zzz" (SExpr.lit 0) rfl (by decide)).1,
    (C8_statebuilder_errors.2.2 Scope.GLOBAL false demoKeys demoBuilder
      "zzz" (SExpr.lit 0) rfl (by decide)).2.2.1⟩

end AlgorandTut
